import Mathlib

/-!
Verification of the S&P 500 Cycle Tracker aggregation core.

Shallow embedding of `src/server.js` (the main server) and
`src/unnamed/part_000` (a second server variant, modelled in namespace `V2`).
JavaScript numbers are modelled as exact rationals (ℚ); `Math.round` is
modelled as `jsRound` (floor of x + 1/2, the JavaScript
round-half-toward-positive-infinity semantics); millisecond timestamps are
integers.  Network effects are modelled by passing each upstream fetch
outcome as an `Option` argument and counting issued fetch attempts, and the
mutable module-level cache is threaded as explicit state.
-/

/-- JavaScript `Math.round`: rounds half toward positive infinity,
i.e. `⌊x + 1/2⌋`. -/
def jsRound (q : ℚ) : ℤ := ⌊q + 1/2⌋

/-- Standard round-half-away-from-zero, the rounding mode named by the spec. -/
def roundHalfAway (q : ℚ) : ℤ := if 0 ≤ q then ⌊q + 1/2⌋ else -⌊-q + 1/2⌋

theorem jsRound_intCast (n : ℤ) : jsRound (n : ℚ) = n := by
  unfold jsRound
  rw [Int.floor_int_add]
  norm_num

theorem jsRound_mono {x y : ℚ} (h : x ≤ y) : jsRound x ≤ jsRound y := by
  unfold jsRound
  exact Int.floor_le_floor (by linarith)

theorem jsRound_le_of_le {q : ℚ} {n : ℤ} (h : q ≤ (n : ℚ)) : jsRound q ≤ n := by
  have := jsRound_mono h
  rwa [jsRound_intCast] at this

theorem le_jsRound_of_le {n : ℤ} {q : ℚ} (h : (n : ℚ) ≤ q) : n ≤ jsRound q := by
  have := jsRound_mono h
  rwa [jsRound_intCast] at this

theorem jsRound_int_add (n : ℤ) (x : ℚ) : jsRound ((n : ℚ) + x) = n + jsRound x := by
  unfold jsRound
  rw [add_assoc, Int.floor_int_add]

theorem roundHalfAway_eq_jsRound {q : ℚ} (h : 0 ≤ q) : roundHalfAway q = jsRound q := by
  unfold roundHalfAway jsRound
  rw [if_pos h]

/-! ### Percentile engine (`interpolatePercentile`, server.js lines 65-78) -/

/-- One `{ value, pct }` entry of a `HISTORICAL.*` percentile table. -/
structure Breakpoint where
  value : ℚ
  pct : ℤ
deriving DecidableEq

/-- The linear-interpolation expression evaluated inside the loop of
`interpolatePercentile`:
`prev.pct + (value - prev.value) / (curr.value - prev.value) * (curr.pct - prev.pct)`. -/
def bracketVal (value : ℚ) (prev curr : Breakpoint) : ℚ :=
  (prev.pct : ℚ) + (value - prev.value) / (curr.value - prev.value) * ((curr.pct : ℚ) - (prev.pct : ℚ))

/-- The `for (let i = 1; ...)` loop of `interpolatePercentile`: scan for the
first entry `curr` with `value <= curr.value`, interpolating against the
previous entry; the trailing `return 100` of the source is the `[]` case. -/
def interpLoop (value : ℚ) : Breakpoint → List Breakpoint → ℤ
  | _, [] => 100
  | prev, curr :: rest =>
    if value ≤ curr.value then jsRound (bracketVal value prev curr)
    else interpLoop value curr rest

/-- Last element of the table `p :: l`
(JS `percentiles[percentiles.length - 1]`). -/
def lastB (p : Breakpoint) (l : List Breakpoint) : Breakpoint :=
  l.getLast?.getD p

/-- `interpolatePercentile(value, percentiles)` from server.js lines 65-78.
The `[]` case is unreachable in the source (every table passed is nonempty;
JS would throw on an empty array) and is given the fallthrough
value of the loop. -/
def interpolatePercentile (value : ℚ) (percentiles : List Breakpoint) : ℤ :=
  match percentiles with
  | [] => 100
  | p0 :: rest =>
    if value ≤ p0.value then p0.pct
    else if (lastB p0 rest).value ≤ value then 100
    else interpLoop value p0 rest

/-- CAPE table from `HISTORICAL.cape` (server.js lines 45-49). -/
def capeTable : List Breakpoint :=
  [⟨6.6, 0⟩, ⟨10.0, 10⟩, ⟨15.0, 25⟩, ⟨20.5, 50⟩, ⟨25.0, 75⟩,
   ⟨30.0, 90⟩, ⟨35.0, 95⟩, ⟨40.0, 98⟩, ⟨48.1, 100⟩]

/-- Credit-spread table from `HISTORICAL.creditSpread` (server.js lines 35-39). -/
def creditSpreadTable : List Breakpoint :=
  [⟨1.16, 0⟩, ⟨1.50, 5⟩, ⟨1.69, 19⟩, ⟨1.76, 25⟩, ⟨2.15, 50⟩,
   ⟨2.67, 75⟩, ⟨3.00, 85⟩, ⟨3.50, 95⟩, ⟨6.16, 100⟩]

/-- Buffett table from `HISTORICAL.buffett` (server.js lines 55-59). -/
def buffettTable : List Breakpoint :=
  [⟨35, 0⟩, ⟨50, 15⟩, ⟨70, 35⟩, ⟨85, 50⟩, ⟨110, 70⟩,
   ⟨140, 85⟩, ⟨175, 93⟩, ⟨200, 97⟩, ⟨250, 100⟩]

/-- Modelled from the spec: the loop of the reference percentile algorithm of
spec §4.1, which writes the interpolation as
`p_{i-1} + round((value - v_{i-1}) / (v_i - v_{i-1}) * (p_i - p_{i-1}))`
with round-half-away-from-zero rounding.  Used only to compare
`interpolatePercentile` of the code against the wording of the spec. -/
def specLoop (value : ℚ) : Breakpoint → List Breakpoint → ℤ
  | _, [] => 100
  | prev, curr :: rest =>
    if value ≤ curr.value then
      prev.pct + roundHalfAway ((value - prev.value) / (curr.value - prev.value) * ((curr.pct : ℚ) - (prev.pct : ℚ)))
    else specLoop value curr rest

/-- Modelled from the spec: the reference algorithm `percentileOf` of spec
§4.1 — percentile of the first breakpoint at or below the first value, 100 at or
above the last value, otherwise interpolate in the bracketing pair. -/
def percentileSpec (value : ℚ) (percentiles : List Breakpoint) : ℤ :=
  match percentiles with
  | [] => 100
  | p0 :: rest =>
    if value ≤ p0.value then p0.pct
    else if (lastB p0 rest).value ≤ value then 100
    else specLoop value p0 rest

/-- Values of a table are strictly increasing (spec §3, PercentileBreakpoint). -/
def ValuesLT (l : List Breakpoint) : Prop :=
  List.Chain' (fun a b => a.value < b.value) l

/-- Percentiles of a table are non-decreasing. -/
def PctsLE (l : List Breakpoint) : Prop :=
  List.Chain' (fun a b => a.pct ≤ b.pct) l

instance : DecidablePred ValuesLT := fun _ =>
  inferInstanceAs (Decidable (List.Chain' _ _))

instance : DecidablePred PctsLE := fun _ =>
  inferInstanceAs (Decidable (List.Chain' _ _))

/-! ### Bracketing-pair facts -/

theorem bracketVal_ge_left {value : ℚ} {prev curr : Breakpoint}
    (hv : prev.value < curr.value) (hval : prev.value ≤ value)
    (hp : prev.pct ≤ curr.pct) :
    (prev.pct : ℚ) ≤ bracketVal value prev curr := by
  unfold bracketVal
  have hd : (0 : ℚ) < curr.value - prev.value := by linarith
  have hf : (0 : ℚ) ≤ (value - prev.value) / (curr.value - prev.value) :=
    div_nonneg (by linarith) hd.le
  have hdp : (0 : ℚ) ≤ (curr.pct : ℚ) - (prev.pct : ℚ) := by
    have : (prev.pct : ℚ) ≤ (curr.pct : ℚ) := by exact_mod_cast hp
    linarith
  nlinarith [mul_nonneg hf hdp]

theorem bracketVal_le_right {value : ℚ} {prev curr : Breakpoint}
    (hv : prev.value < curr.value) (hval : value ≤ curr.value)
    (hp : prev.pct ≤ curr.pct) :
    bracketVal value prev curr ≤ (curr.pct : ℚ) := by
  unfold bracketVal
  have hd : (0 : ℚ) < curr.value - prev.value := by linarith
  have hf : (value - prev.value) / (curr.value - prev.value) ≤ 1 :=
    (div_le_one hd).mpr (by linarith)
  have hdp : (0 : ℚ) ≤ (curr.pct : ℚ) - (prev.pct : ℚ) := by
    have : (prev.pct : ℚ) ≤ (curr.pct : ℚ) := by exact_mod_cast hp
    linarith
  nlinarith [mul_le_mul_of_nonneg_right hf hdp]

theorem bracketVal_mono {x y : ℚ} {prev curr : Breakpoint}
    (hv : prev.value < curr.value) (hxy : x ≤ y)
    (hp : prev.pct ≤ curr.pct) :
    bracketVal x prev curr ≤ bracketVal y prev curr := by
  unfold bracketVal
  have hd : (0 : ℚ) < curr.value - prev.value := by linarith
  have hf : (x - prev.value) / (curr.value - prev.value) ≤
      (y - prev.value) / (curr.value - prev.value) :=
    (div_le_div_iff_of_pos_right hd).mpr (by linarith)
  have hdp : (0 : ℚ) ≤ (curr.pct : ℚ) - (prev.pct : ℚ) := by
    have : (prev.pct : ℚ) ≤ (curr.pct : ℚ) := by exact_mod_cast hp
    linarith
  nlinarith [mul_le_mul_of_nonneg_right hf hdp]

theorem bracketVal_le_of {value : ℚ} {prev curr : Breakpoint}
    (hv : prev.value < curr.value) (h0 : prev.value ≤ value)
    (h1 : value ≤ curr.value) {hi : ℤ}
    (hp : prev.pct ≤ hi) (hc : curr.pct ≤ hi) :
    bracketVal value prev curr ≤ (hi : ℚ) := by
  unfold bracketVal
  have hd : (0 : ℚ) < curr.value - prev.value := by linarith
  set f : ℚ := (value - prev.value) / (curr.value - prev.value) with hfdef
  have hf0 : (0 : ℚ) ≤ f := div_nonneg (by linarith) hd.le
  have hf1 : f ≤ 1 := (div_le_one hd).mpr (by linarith)
  have hpq : (prev.pct : ℚ) ≤ (hi : ℚ) := by exact_mod_cast hp
  have hcq : (curr.pct : ℚ) ≤ (hi : ℚ) := by exact_mod_cast hc
  have key : (prev.pct : ℚ) + f * ((curr.pct : ℚ) - (prev.pct : ℚ)) - (hi : ℚ) =
      (1 - f) * ((prev.pct : ℚ) - (hi : ℚ)) + f * ((curr.pct : ℚ) - (hi : ℚ)) := by
    ring
  nlinarith [mul_nonneg (by linarith : (0:ℚ) ≤ 1 - f) (by linarith : (0:ℚ) ≤ (hi:ℚ) - (prev.pct:ℚ)),
    mul_nonneg hf0 (by linarith : (0:ℚ) ≤ (hi:ℚ) - (curr.pct:ℚ))]

theorem bracketVal_ge_of {value : ℚ} {prev curr : Breakpoint}
    (hv : prev.value < curr.value) (h0 : prev.value ≤ value)
    (h1 : value ≤ curr.value) {lo : ℤ}
    (hp : lo ≤ prev.pct) (hc : lo ≤ curr.pct) :
    (lo : ℚ) ≤ bracketVal value prev curr := by
  unfold bracketVal
  have hd : (0 : ℚ) < curr.value - prev.value := by linarith
  set f : ℚ := (value - prev.value) / (curr.value - prev.value) with hfdef
  have hf0 : (0 : ℚ) ≤ f := div_nonneg (by linarith) hd.le
  have hf1 : f ≤ 1 := (div_le_one hd).mpr (by linarith)
  have hpq : (lo : ℚ) ≤ (prev.pct : ℚ) := by exact_mod_cast hp
  have hcq : (lo : ℚ) ≤ (curr.pct : ℚ) := by exact_mod_cast hc
  nlinarith [mul_nonneg (by linarith : (0:ℚ) ≤ 1 - f) (by linarith : (0:ℚ) ≤ (prev.pct:ℚ) - (lo:ℚ)),
    mul_nonneg hf0 (by linarith : (0:ℚ) ≤ (curr.pct:ℚ) - (lo:ℚ))]

/-! ### Loop lemmas -/

theorem interpLoop_le_100 (value : ℚ) :
    ∀ (l : List Breakpoint) (prev : Breakpoint), ValuesLT (prev :: l) →
      (∀ b ∈ prev :: l, b.pct ≤ 100) → prev.value ≤ value →
      interpLoop value prev l ≤ 100 := by
  intro l
  induction l with
  | nil => intro prev _ _ _; simp [interpLoop]
  | cons curr rest ih =>
    intro prev hv hb hval
    have hvc : prev.value < curr.value := (List.chain'_cons.mp hv).1
    by_cases h : value ≤ curr.value
    · rw [interpLoop, if_pos h]
      exact jsRound_le_of_le
        (bracketVal_le_of hvc hval h (hb prev (by simp)) (hb curr (by simp)))
    · rw [interpLoop, if_neg h]
      exact ih curr (List.chain'_cons.mp hv).2
        (fun b hb' => hb b (List.mem_cons_of_mem _ hb'))
        (le_of_lt (lt_of_not_le h))

theorem interpLoop_nonneg (value : ℚ) :
    ∀ (l : List Breakpoint) (prev : Breakpoint), ValuesLT (prev :: l) →
      (∀ b ∈ prev :: l, 0 ≤ b.pct) → prev.value ≤ value →
      0 ≤ interpLoop value prev l := by
  intro l
  induction l with
  | nil => intro prev _ _ _; simp [interpLoop]
  | cons curr rest ih =>
    intro prev hv hb hval
    have hvc : prev.value < curr.value := (List.chain'_cons.mp hv).1
    by_cases h : value ≤ curr.value
    · rw [interpLoop, if_pos h]
      exact le_jsRound_of_le
        (bracketVal_ge_of hvc hval h (hb prev (by simp)) (hb curr (by simp)))
    · rw [interpLoop, if_neg h]
      exact ih curr (List.chain'_cons.mp hv).2
        (fun b hb' => hb b (List.mem_cons_of_mem _ hb'))
        (le_of_lt (lt_of_not_le h))

theorem interpLoop_ge_pct (value : ℚ) :
    ∀ (l : List Breakpoint) (prev : Breakpoint), ValuesLT (prev :: l) →
      PctsLE (prev :: l) → (∀ b ∈ prev :: l, b.pct ≤ 100) →
      prev.value < value → prev.pct ≤ interpLoop value prev l := by
  intro l
  induction l with
  | nil => intro prev _ _ hb _; simpa [interpLoop] using hb prev (by simp)
  | cons curr rest ih =>
    intro prev hv hp hb hval
    have hvc : prev.value < curr.value := (List.chain'_cons.mp hv).1
    have hpc : prev.pct ≤ curr.pct := (List.chain'_cons.mp hp).1
    by_cases h : value ≤ curr.value
    · rw [interpLoop, if_pos h]
      exact le_jsRound_of_le (bracketVal_ge_left hvc hval.le hpc)
    · rw [interpLoop, if_neg h]
      exact le_trans hpc
        (ih curr (List.chain'_cons.mp hv).2 (List.chain'_cons.mp hp).2
          (fun b hb' => hb b (List.mem_cons_of_mem _ hb'))
          (lt_of_not_le h))

theorem interpLoop_mono {x y : ℚ} (hxy : x ≤ y) :
    ∀ (l : List Breakpoint) (prev : Breakpoint), ValuesLT (prev :: l) →
      PctsLE (prev :: l) → (∀ b ∈ prev :: l, b.pct ≤ 100) →
      prev.value < x → interpLoop x prev l ≤ interpLoop y prev l := by
  intro l
  induction l with
  | nil => intro prev _ _ _ _; simp [interpLoop]
  | cons curr rest ih =>
    intro prev hv hp hb hval
    have hvc : prev.value < curr.value := (List.chain'_cons.mp hv).1
    have hpc : prev.pct ≤ curr.pct := (List.chain'_cons.mp hp).1
    have hvt := (List.chain'_cons.mp hv).2
    have hpt := (List.chain'_cons.mp hp).2
    have hbt : ∀ b ∈ curr :: rest, b.pct ≤ 100 :=
      fun b hb' => hb b (List.mem_cons_of_mem _ hb')
    by_cases hx : x ≤ curr.value
    · by_cases hy : y ≤ curr.value
      · rw [interpLoop, if_pos hx, interpLoop, if_pos hy]
        exact jsRound_mono (bracketVal_mono hvc hxy hpc)
      · rw [interpLoop, if_pos hx, interpLoop, if_neg hy]
        have hleft : jsRound (bracketVal x prev curr) ≤ curr.pct :=
          jsRound_le_of_le (bracketVal_le_right hvc hx hpc)
        have hright : curr.pct ≤ interpLoop y curr rest :=
          interpLoop_ge_pct y rest curr hvt hpt hbt (lt_of_not_le hy)
        exact le_trans hleft hright
    · have hy : ¬ y ≤ curr.value := fun h => hx (le_trans hxy h)
      rw [interpLoop, if_neg hx, interpLoop, if_neg hy]
      exact ih curr hvt hpt hbt (lt_of_not_le hx)

theorem interpLoop_eq_specLoop (value : ℚ) :
    ∀ (l : List Breakpoint) (prev : Breakpoint), ValuesLT (prev :: l) →
      PctsLE (prev :: l) → prev.value < value →
      interpLoop value prev l = specLoop value prev l := by
  intro l
  induction l with
  | nil => intro prev _ _ _; simp [interpLoop, specLoop]
  | cons curr rest ih =>
    intro prev hv hp hval
    have hvc : prev.value < curr.value := (List.chain'_cons.mp hv).1
    have hpc : prev.pct ≤ curr.pct := (List.chain'_cons.mp hp).1
    by_cases h : value ≤ curr.value
    · rw [interpLoop, if_pos h, specLoop, if_pos h]
      have hd : (0 : ℚ) < curr.value - prev.value := by linarith
      have hf : (0 : ℚ) ≤ (value - prev.value) / (curr.value - prev.value) :=
        div_nonneg (by linarith) hd.le
      have hdp : (0 : ℚ) ≤ (curr.pct : ℚ) - (prev.pct : ℚ) := by
        have : (prev.pct : ℚ) ≤ (curr.pct : ℚ) := by exact_mod_cast hpc
        linarith
      have hprod : (0 : ℚ) ≤
          (value - prev.value) / (curr.value - prev.value) * ((curr.pct : ℚ) - (prev.pct : ℚ)) :=
        mul_nonneg hf hdp
      rw [show bracketVal value prev curr = (prev.pct : ℚ) +
          (value - prev.value) / (curr.value - prev.value) * ((curr.pct : ℚ) - (prev.pct : ℚ)) from rfl]
      rw [jsRound_int_add, roundHalfAway_eq_jsRound hprod]
    · rw [interpLoop, if_neg h, specLoop, if_neg h]
      exact ih curr (List.chain'_cons.mp hv).2 (List.chain'_cons.mp hp).2 (lt_of_not_le h)

/-! ### Top-level percentile facts -/

theorem interpolatePercentile_mono (p0 : Breakpoint) (rest : List Breakpoint)
    (hv : ValuesLT (p0 :: rest)) (hp : PctsLE (p0 :: rest))
    (hb : ∀ b ∈ p0 :: rest, b.pct ≤ 100) {x y : ℚ} (hxy : x ≤ y) :
    interpolatePercentile x (p0 :: rest) ≤ interpolatePercentile y (p0 :: rest) := by
  simp only [interpolatePercentile]
  by_cases hx0 : x ≤ p0.value
  · rw [if_pos hx0]
    by_cases hy0 : y ≤ p0.value
    · rw [if_pos hy0]
    · rw [if_neg hy0]
      by_cases hyl : (lastB p0 rest).value ≤ y
      · rw [if_pos hyl]
        exact hb p0 (by simp)
      · rw [if_neg hyl]
        exact interpLoop_ge_pct y rest p0 hv hp hb (lt_of_not_le hy0)
  · rw [if_neg hx0]
    have hy0 : ¬ y ≤ p0.value := fun h => hx0 (le_trans hxy h)
    rw [if_neg hy0]
    by_cases hxl : (lastB p0 rest).value ≤ x
    · rw [if_pos hxl, if_pos (le_trans hxl hxy)]
    · rw [if_neg hxl]
      by_cases hyl : (lastB p0 rest).value ≤ y
      · rw [if_pos hyl]
        exact interpLoop_le_100 x rest p0 hv hb (le_of_lt (lt_of_not_le hx0))
      · rw [if_neg hyl]
        exact interpLoop_mono hxy rest p0 hv hp hb (lt_of_not_le hx0)

theorem interpolatePercentile_range (p0 : Breakpoint) (rest : List Breakpoint)
    (hv : ValuesLT (p0 :: rest))
    (h0 : ∀ b ∈ p0 :: rest, 0 ≤ b.pct) (hb : ∀ b ∈ p0 :: rest, b.pct ≤ 100)
    (value : ℚ) :
    0 ≤ interpolatePercentile value (p0 :: rest) ∧
      interpolatePercentile value (p0 :: rest) ≤ 100 := by
  simp only [interpolatePercentile]
  by_cases hx0 : value ≤ p0.value
  · rw [if_pos hx0]
    exact ⟨h0 p0 (by simp), hb p0 (by simp)⟩
  · rw [if_neg hx0]
    by_cases hxl : (lastB p0 rest).value ≤ value
    · rw [if_pos hxl]
      norm_num
    · rw [if_neg hxl]
      exact ⟨interpLoop_nonneg value rest p0 hv h0 (le_of_lt (lt_of_not_le hx0)),
        interpLoop_le_100 value rest p0 hv hb (le_of_lt (lt_of_not_le hx0))⟩

theorem interpolatePercentile_eq_spec (p0 : Breakpoint) (rest : List Breakpoint)
    (hv : ValuesLT (p0 :: rest)) (hp : PctsLE (p0 :: rest)) (value : ℚ) :
    interpolatePercentile value (p0 :: rest) = percentileSpec value (p0 :: rest) := by
  simp only [interpolatePercentile, percentileSpec]
  by_cases hx0 : value ≤ p0.value
  · rw [if_pos hx0, if_pos hx0]
  · rw [if_neg hx0, if_neg hx0]
    by_cases hxl : (lastB p0 rest).value ≤ value
    · rw [if_pos hxl, if_pos hxl]
    · rw [if_neg hxl, if_neg hxl]
      exact interpLoop_eq_specLoop value rest p0 hv hp (lt_of_not_le hx0)

/-! ### Cache model (server.js lines 16-29, 80-82) -/

/-- One slot of the module-level `cache` object: `{ data, timestamp }`. -/
structure Entry (α : Type) where
  data : Option α
  timestamp : ℤ

/-- `CACHE_DURATION.creditSpread` (1 hour, in ms). -/
def creditSpreadDuration : ℤ := 60 * 60 * 1000

/-- `CACHE_DURATION.buffett` (24 hours, in ms). -/
def buffettDuration : ℤ := 24 * 60 * 60 * 1000

/-- `CACHE_DURATION.cape` (24 hours, in ms). -/
def capeDuration : ℤ := 24 * 60 * 60 * 1000

/-- `CACHE_DURATION.shillerData` (24 hours, in ms). -/
def shillerDataDuration : ℤ := 24 * 60 * 60 * 1000

/-- `isCacheValid(key)` (server.js lines 80-82):
`cache[key].data && (Date.now() - cache[key].timestamp < CACHE_DURATION[key])`.
A `null` data field is falsy, so the whole conjunction is false whatever the
timestamps are. -/
def isCacheValid {α : Type} (e : Entry α) (dur now : ℤ) : Bool :=
  e.data.isSome && decide (now - e.timestamp < dur)

/-- One parsed FRED observation `{ value, date }` (after `parseFloat`). -/
structure Obs where
  value : ℚ
  date : String
deriving DecidableEq

/-- Response shape of `/api/credit-spread` (server.js lines 182-187). -/
structure CreditResult where
  value : ℚ
  percentile : ℤ
  date : String
  updatedAt : String
deriving DecidableEq

/-- Response shape of `/api/buffett` (server.js lines 221-228). -/
structure BuffettResult where
  value : ℤ
  percentile : ℤ
  marketCapDate : String
  gdpDate : String
  isAllTimeHigh : Bool
  updatedAt : String
deriving DecidableEq

/-- What the Shiller spreadsheet download parses to: the latest CAPE cell (or
none when no row has a parseable number) and its date cell.  Passing `none`
for the whole structure models the fetch/parse throwing. -/
structure ShillerParsed where
  cape : Option ℚ
  date : Option String
deriving DecidableEq

/-- Result object of `fetchShillerData` (server.js lines 145-150 and 162). -/
structure ShillerResult where
  cape : Option ℚ
  date : Option String
  source : String
  fetchedAt : Option String
  error : Option String
deriving DecidableEq

/-- Response shape of `/api/cape` (server.js lines 251-257). -/
structure CapeResult where
  value : Option ℚ
  percentile : ℤ
  date : Option String
  source : String
  updatedAt : String
deriving DecidableEq

/-- The whole module-level `cache` object (server.js lines 17-22). -/
structure CacheSt where
  creditSpread : Entry CreditResult
  buffett : Entry BuffettResult
  cape : Entry CapeResult
  shillerData : Entry ShillerResult

/-- Initial cache state: every slot `{ data: null, timestamp: 0 }`. -/
def initialCache : CacheSt :=
  ⟨⟨none, 0⟩, ⟨none, 0⟩, ⟨none, 0⟩, ⟨none, 0⟩⟩

/-- Unreachable `Option.getD` default: a fresh-cache read is guarded by
`isCacheValid`, which requires `data` to be present. -/
def shillerDefault : ShillerResult := ⟨none, none, "", none, none⟩

/-- JavaScript `ToNumber` coercion applied by the `<=`/`>=` comparisons of
`interpolatePercentile` when the cape value is `null`: `null` compares as 0. -/
def toNumber (v : Option ℚ) : ℚ := v.getD 0

/-- `fetchShillerData()` (server.js lines 85-164) as a function of the cache
state, the clock, and the network outcome `net` (`none` = the download or the
spreadsheet parse threw).  Returns the result object, the updated cache and
the number of upstream fetch attempts issued.  On a throw it falls back to
the cached result if one exists, else the static
`{ cape: 38.2, date: "fallback", source: "static", error: ... }`. -/
def fetchShillerData (st : CacheSt) (now : ℤ) (nowIso errMsg : String)
    (net : Option ShillerParsed) : ShillerResult × CacheSt × ℕ :=
  if isCacheValid st.shillerData shillerDataDuration now then
    (st.shillerData.data.getD shillerDefault, st, 0)
  else
    match net with
    | some parsed =>
      let result : ShillerResult :=
        { cape := parsed.cape, date := parsed.date, source := "Shiller/Yale",
          fetchedAt := some nowIso, error := none }
      (result, { st with shillerData := ⟨some result, now⟩ }, 1)
    | none =>
      match st.shillerData.data with
      | some cached => (cached, st, 1)
      | none =>
        ({ cape := some 38.2, date := some "fallback", source := "static",
           fetchedAt := none, error := some errMsg }, st, 1)

/-- An HTTP error reply `res.status(status).json({ error: message })`. -/
structure ErrorResponse where
  status : ℕ
  message : String
deriving DecidableEq

/-- Unreachable `Option.getD` default (guarded by `isCacheValid`). -/
def creditDefault : CreditResult := ⟨0, 0, "", ""⟩

/-- `GET /api/credit-spread` (server.js lines 167-198) as a function of cache
state, clock and the FRED outcome `net` (`none` = the fetch threw, the JSON
was malformed, or `observations` was missing/empty — all of which reach the
catch handler, which replies with status 500).  Third component counts
upstream fetch attempts. -/
def creditSpreadEndpoint (st : CacheSt) (now : ℤ) (nowIso : String)
    (errMsg : String) (net : Option Obs) :
    Except ErrorResponse CreditResult × CacheSt × ℕ :=
  if isCacheValid st.creditSpread creditSpreadDuration now then
    (Except.ok (st.creditSpread.data.getD creditDefault), st, 0)
  else
    match net with
    | some obs =>
      let result : CreditResult :=
        { value := obs.value,
          percentile := interpolatePercentile obs.value creditSpreadTable,
          date := obs.date, updatedAt := nowIso }
      (Except.ok result, { st with creditSpread := ⟨some result, now⟩ }, 1)
    | none => (Except.error ⟨500, errMsg⟩, st, 1)

/-- Unreachable `Option.getD` default (guarded by `isCacheValid`). -/
def buffettDefault : BuffettResult := ⟨0, 0, "", "", false, ""⟩

/-- `GET /api/buffett` (server.js lines 201-239): both FRED series are fetched
(2 attempts); if either has no observations the handler throws and replies
500.  Note the `value` of the response is `Math.round(buffettValue)` while
`isAllTimeHigh` compares the unrounded `buffettValue` with 240, and the
percentile is computed on the unrounded value. -/
def buffettEndpoint (st : CacheSt) (now : ℤ) (nowIso : String)
    (errMsg : String) (mc gdp : Option Obs) :
    Except ErrorResponse BuffettResult × CacheSt × ℕ :=
  if isCacheValid st.buffett buffettDuration now then
    (Except.ok (st.buffett.data.getD buffettDefault), st, 0)
  else
    match mc, gdp with
    | some m, some g =>
      let buffettValue : ℚ := m.value / (g.value * 1000) * 100
      let result : BuffettResult :=
        { value := jsRound buffettValue,
          percentile := interpolatePercentile buffettValue buffettTable,
          marketCapDate := m.date, gdpDate := g.date,
          isAllTimeHigh := decide (240 ≤ buffettValue),
          updatedAt := nowIso }
      (Except.ok result, { st with buffett := ⟨some result, now⟩ }, 2)
    | _, _ => (Except.error ⟨500, errMsg⟩, st, 2)

/-- Unreachable `Option.getD` default (guarded by `isCacheValid`). -/
def capeDefault : CapeResult := ⟨none, 0, none, "", ""⟩

/-- `GET /api/cape` (server.js lines 242-265): serve the cape cache when
fresh, else go through `fetchShillerData` (which has its own cache and never
throws) and compute the percentile. -/
def capeEndpoint (st : CacheSt) (now : ℤ) (nowIso errMsg : String)
    (net : Option ShillerParsed) : CapeResult × CacheSt × ℕ :=
  if isCacheValid st.cape capeDuration now then
    (st.cape.data.getD capeDefault, st, 0)
  else
    let fs := fetchShillerData st now nowIso errMsg net
    let result : CapeResult :=
      { value := fs.1.cape,
        percentile := interpolatePercentile (toNumber fs.1.cape) capeTable,
        date := fs.1.date, source := fs.1.source, updatedAt := nowIso }
    (result, { fs.2.1 with cape := ⟨some result, now⟩ }, fs.2.2)

/-! ### Composite endpoint `/api/indicators` (server.js lines 268-346) -/

/-- `sp500` field of the composite payload. -/
structure SpField where
  value : ℚ
  date : Option String
  timestamp : String
  source : String
deriving DecidableEq

/-- `cape` field of the composite payload. -/
structure CapeField where
  value : Option ℚ
  percentile : ℤ
  date : Option String
  source : String
deriving DecidableEq

/-- `buffett` field of the composite payload. -/
structure BuffettField where
  value : ℤ
  percentile : ℤ
  date : Option String
  isAllTimeHigh : Bool
deriving DecidableEq

/-- `creditSpread` field of the composite payload. -/
structure CreditField where
  value : ℚ
  percentile : ℤ
  date : Option String
deriving DecidableEq

/-- The `/api/indicators` response body. -/
structure IndicatorsPayload where
  score : ℤ
  sp500 : SpField
  cape : CapeField
  buffett : BuffettField
  creditSpread : CreditField
  isLive : Bool
  error : Option String
  updatedAt : String
deriving DecidableEq

/-- The fixed static snapshot served by the catch handler of
`/api/indicators` (server.js lines 335-344), with the message of the caught error
attached and `isLive: false`. -/
def staticSnapshot (errMsg nowIso : String) : IndicatorsPayload :=
  { score := 99,
    sp500 := { value := 6845.50, date := none, timestamp := "Dec 31 close", source := "static" },
    cape := { value := some 39.4, percentile := 98, date := none, source := "static" },
    buffett := { value := 244, percentile := 100, date := none, isAllTimeHigh := true },
    creditSpread := { value := 1.69, percentile := 19, date := none },
    isLive := false,
    error := some errMsg,
    updatedAt := nowIso }

/-- `GET /api/indicators` (server.js lines 268-346) as a function of the cache
state, the clock, the date formatter `fmtTs` (modelling
`new Date(d).toLocaleDateString(...) + " close"`), and the five upstream
outcomes.  `fetchShillerData` never throws (it has its own fallback chain),
but a failure of the credit, market-cap, GDP or S&P 500 fetch (`none`,
covering a rejected fetch as well as missing `observations`, both of which
throw inside the handler) lands in the catch handler, which replies with the
static snapshot — the handler never sends an error status.  All four FRED
fetches are always issued (`Promise.all` fans them out), hence `n + 4`
attempts; the cache write of `fetchShillerData` survives into the degraded path. -/
def indicatorsEndpoint (st : CacheSt) (now : ℤ) (nowIso : String)
    (fmtTs : String → String) (errMsg : String)
    (shillerNet : Option ShillerParsed) (credit mc gdp sp : Option Obs) :
    IndicatorsPayload × CacheSt × ℕ :=
  let fs := fetchShillerData st now nowIso errMsg shillerNet
  match credit, mc, gdp, sp with
  | some c, some m, some g, some s =>
    let capeValue := fs.1.cape
    let capePercentile := interpolatePercentile (toNumber capeValue) capeTable
    let creditValue := c.value
    let creditPercentile := interpolatePercentile creditValue creditSpreadTable
    let gdpScaled := g.value * 1000
    let buffettValue := jsRound (m.value / gdpScaled * 100)
    let buffettPercentile := interpolatePercentile (buffettValue : ℚ) buffettTable
    let compositeScore := jsRound (((capePercentile : ℚ) + (buffettPercentile : ℚ)) / 2)
    ({ score := compositeScore,
       sp500 := { value := s.value, date := some s.date, timestamp := fmtTs s.date,
                  source := "FRED/S&P Dow Jones" },
       cape := { value := capeValue, percentile := capePercentile,
                 date := fs.1.date, source := "Shiller/Yale" },
       buffett := { value := buffettValue, percentile := buffettPercentile,
                    date := some m.date, isAllTimeHigh := decide (240 ≤ buffettValue) },
       creditSpread := { value := creditValue, percentile := creditPercentile,
                         date := some c.date },
       isLive := true,
       error := none,
       updatedAt := nowIso }, fs.2.1, fs.2.2 + 4)
  | _, _, _, _ => (staticSnapshot errMsg nowIso, fs.2.1, fs.2.2 + 4)

/-- `cacheStatus` of `GET /api/health` (server.js lines 353-357):
cape, buffett and creditSpread freshness as `"valid"`/`"expired"`. -/
def healthCacheStatus (st : CacheSt) (now : ℤ) : String × String × String :=
  (if isCacheValid st.cape capeDuration now then "valid" else "expired",
   if isCacheValid st.buffett buffettDuration now then "valid" else "expired",
   if isCacheValid st.creditSpread creditSpreadDuration now then "valid" else "expired")

/-! ### Second server variant (`src/unnamed/part_000`), namespace `V2` -/

namespace V2

/-- One row of a FRED CSV series after the dot-sentinel filter and
`parseFloat` (part_000 lines 18-23). -/
structure FredRow where
  date : String
  value : ℚ
deriving DecidableEq

/-- Yahoo quote meta object (part_000 line 60). -/
structure SpQuote where
  price : ℚ
  high52w : ℚ
  low52w : ℚ
deriving DecidableEq

/-- Return shape of `calculateBuffettIndicator` on success (part_000
lines 75-80). -/
structure BuffettCalc where
  value : ℚ
  date : String
  marketCap : ℚ
  gdp : ℚ
deriving DecidableEq

/-- `calculateBuffettIndicator(wilshire, gdp)` (part_000 lines 69-81):
`null` when either series is missing or empty; otherwise
`Math.round((latestWilshire.value * 1.05 / latestGDP.value) * 1000) / 10`. -/
def calculateBuffettIndicator (wilshire gdp : Option (List FredRow)) :
    Option BuffettCalc :=
  match wilshire, gdp with
  | some ws, some gs =>
    match ws.getLast?, gs.getLast? with
    | some lw, some lg =>
      some { value := ((jsRound (lw.value * 1.05 / lg.value * 1000) : ℤ) : ℚ) / 10,
             date := lw.date,
             marketCap := lw.value * 1.05,
             gdp := lg.value }
    | _, _ => none
  | _, _ => none

/-- JavaScript `x || d` for a number that may be `null`: both `null` and `0`
are falsy and select the default. -/
def jsOrQ (o : Option ℚ) (d : ℚ) : ℚ :=
  match o with
  | some c => if c = 0 then d else c
  | none => d

/-- `indicators` object of the `/api/current` payload (part_000
lines 101-106). -/
structure Indicators where
  cape : ℚ
  buffett : ℚ
  creditSpread : ℚ
  sp500 : Option ℚ
deriving DecidableEq

/-- `metadata` object of the `/api/current` payload (part_000
lines 108-112). -/
structure Metadata where
  buffettDate : Option String
  spreadDate : Option String
  capeSource : String
deriving DecidableEq

/-- The `/api/current` data object (part_000 lines 99-113). -/
structure PData where
  timestamp : String
  indicators : Indicators
  sp500Details : Option SpQuote
  metadata : Metadata
deriving DecidableEq

/-- The module-level cache `{ data: null, timestamp: 0 }` (part_000 line 9). -/
structure PCache where
  data : Option PData
  timestamp : ℤ

/-- `CACHE_DURATION` of part_000 (4 hours, in ms). -/
def cacheDurationMs : ℤ := 4 * 60 * 60 * 1000

/-- Unreachable `Option.getD` default (guarded by the cache check). -/
def pDataDefault : PData :=
  ⟨"", ⟨0, 0, 0, none⟩, none, ⟨none, none, ""⟩⟩

/-- `getCurrentData()` (part_000 lines 83-118) as a function of the cache,
the clock and the five upstream outcomes (each fetcher catches its own errors
and returns `null`, modelled as `none`).  On a cache miss all five fetches
are issued concurrently; each indicator falls back independently
(cape → 38.0, buffett → 200, creditSpread → 1.8, sp500 → null). -/
def getCurrentData (st : PCache) (now : ℤ) (nowIso : String)
    (wilshire gdp baa10y : Option (List FredRow)) (cape : Option ℚ)
    (sp500Yahoo : Option SpQuote) : PData × PCache × ℕ :=
  if st.data.isSome && decide (now - st.timestamp < cacheDurationMs) then
    (st.data.getD pDataDefault, st, 0)
  else
    let buffett := calculateBuffettIndicator wilshire gdp
    let latestSpread : Option FredRow :=
      match baa10y with
      | some l => l.getLast?
      | none => none
    let data : PData :=
      { timestamp := nowIso,
        indicators :=
          { cape := jsOrQ cape 38.0,
            buffett := match buffett with | some b => b.value | none => 200,
            creditSpread := match latestSpread with | some s => s.value | none => 1.8,
            sp500 := sp500Yahoo.map (fun q => q.price) },
        sp500Details := sp500Yahoo,
        metadata :=
          { buffettDate := buffett.map (fun b => b.date),
            spreadDate := latestSpread.map (fun s => s.date),
            capeSource :=
              match cape with
              | some c => if c = 0 then "fallback" else "multpl.com (live)"
              | none => "fallback" } }
    (data, ⟨some data, now⟩, 5)

end V2

/-! ## Claim theorems -/

/-- C5: for every indicator breakpoint table (strictly increasing values,
non-decreasing percentiles) and every input value, `interpolatePercentile`
equals the reference algorithm `percentileSpec` of the spec: it returns the first
percentile of the first breakpoint for values at or below the first breakpoint value,
100 for values at or above the last breakpoint value (saturation, independent
of the own percentile of the last breakpoint), and otherwise the rounded linear
interpolation in the bracketing pair; in particular
`percentileOf(cape, 12.5) = 18`. -/
theorem c5_percentile_matches_reference (p0 : Breakpoint) (rest : List Breakpoint)
    (hv : ValuesLT (p0 :: rest)) (hp : PctsLE (p0 :: rest)) :
    (∀ value : ℚ,
        interpolatePercentile value (p0 :: rest) = percentileSpec value (p0 :: rest)) ∧
    (∀ value : ℚ, value ≤ p0.value →
        interpolatePercentile value (p0 :: rest) = p0.pct) ∧
    (∀ value : ℚ, p0.value < value → (lastB p0 rest).value ≤ value →
        interpolatePercentile value (p0 :: rest) = 100) ∧
    interpolatePercentile (12.5 : ℚ) capeTable = 18 := by
  refine ⟨interpolatePercentile_eq_spec p0 rest hv hp, ?_, ?_, ?_⟩
  · intro value h
    simp only [interpolatePercentile]
    rw [if_pos h]
  · intro value h1 h2
    simp only [interpolatePercentile]
    rw [if_neg (not_le.mpr h1), if_pos h2]
  · norm_num [interpolatePercentile, capeTable, lastB, interpLoop, bracketVal, jsRound]

/-- Witness for C5 at the shipped CAPE table and value 12.5. -/
theorem c5_witness :
    interpolatePercentile (12.5 : ℚ) capeTable = percentileSpec (12.5 : ℚ) capeTable ∧
    interpolatePercentile (12.5 : ℚ) capeTable = 18 :=
  ⟨(c5_percentile_matches_reference ⟨6.6, 0⟩
      [⟨10.0, 10⟩, ⟨15.0, 25⟩, ⟨20.5, 50⟩, ⟨25.0, 75⟩,
       ⟨30.0, 90⟩, ⟨35.0, 95⟩, ⟨40.0, 98⟩, ⟨48.1, 100⟩]
      (by norm_num [ValuesLT, List.chain'_cons])
      (by norm_num [PctsLE, List.chain'_cons])).1 12.5,
   (c5_percentile_matches_reference ⟨6.6, 0⟩
      [⟨10.0, 10⟩, ⟨15.0, 25⟩, ⟨20.5, 50⟩, ⟨25.0, 75⟩,
       ⟨30.0, 90⟩, ⟨35.0, 95⟩, ⟨40.0, 98⟩, ⟨48.1, 100⟩]
      (by norm_num [ValuesLT, List.chain'_cons])
      (by norm_num [PctsLE, List.chain'_cons])).2.2.2⟩

/-- C6: for every indicator breakpoint table with strictly increasing values
and non-decreasing percentiles (which, per the data model of spec §3, lie in
[0,100] — the upper bound is what makes the saturation-to-100 branch
order-compatible with the interpolated branch), the percentile function is
monotone non-decreasing in the input value, across breakpoint boundaries and
through rounding. -/
theorem c6_percentile_monotonic (p0 : Breakpoint) (rest : List Breakpoint)
    (hv : ValuesLT (p0 :: rest)) (hp : PctsLE (p0 :: rest))
    (hb : ∀ b ∈ p0 :: rest, b.pct ≤ 100) {x y : ℚ} (hxy : x ≤ y) :
    interpolatePercentile x (p0 :: rest) ≤ interpolatePercentile y (p0 :: rest) :=
  interpolatePercentile_mono p0 rest hv hp hb hxy

/-- Witness for C6 at the shipped CAPE table, 12.5 ≤ 32. -/
theorem c6_witness :
    interpolatePercentile (12.5 : ℚ) capeTable ≤ interpolatePercentile (32 : ℚ) capeTable :=
  c6_percentile_monotonic ⟨6.6, 0⟩
    [⟨10.0, 10⟩, ⟨15.0, 25⟩, ⟨20.5, 50⟩, ⟨25.0, 75⟩,
     ⟨30.0, 90⟩, ⟨35.0, 95⟩, ⟨40.0, 98⟩, ⟨48.1, 100⟩]
    (by norm_num [ValuesLT, List.chain'_cons])
    (by norm_num [PctsLE, List.chain'_cons])
    (by intro b hb; fin_cases hb <;> norm_num)
    (by norm_num)

/-- C7: for every indicator breakpoint table (strictly increasing values)
whose percentiles all lie in [0,100], the percentile function is total — it
is a Lean function with no error case — and its result lies in [0,100] for
every input value; moreover, on the non-negative quantities it rounds,
the JavaScript `Math.round` coincides with standard
round-half-away-from-zero. -/
theorem c7_percentile_total_in_range (p0 : Breakpoint) (rest : List Breakpoint)
    (hv : ValuesLT (p0 :: rest))
    (h0 : ∀ b ∈ p0 :: rest, 0 ≤ b.pct) (hb : ∀ b ∈ p0 :: rest, b.pct ≤ 100) :
    (∀ value : ℚ, 0 ≤ interpolatePercentile value (p0 :: rest) ∧
        interpolatePercentile value (p0 :: rest) ≤ 100) ∧
    (∀ q : ℚ, 0 ≤ q → jsRound q = roundHalfAway q) :=
  ⟨fun value => interpolatePercentile_range p0 rest hv h0 hb value,
   fun _ h => (roundHalfAway_eq_jsRound h).symm⟩

/-- Witness for C7 at the shipped Buffett table and value 190. -/
theorem c7_witness :
    (0 ≤ interpolatePercentile (190 : ℚ) buffettTable ∧
      interpolatePercentile (190 : ℚ) buffettTable ≤ 100) ∧
    jsRound (17.5 : ℚ) = roundHalfAway (17.5 : ℚ) :=
  ⟨(c7_percentile_total_in_range ⟨35, 0⟩
      [⟨50, 15⟩, ⟨70, 35⟩, ⟨85, 50⟩, ⟨110, 70⟩,
       ⟨140, 85⟩, ⟨175, 93⟩, ⟨200, 97⟩, ⟨250, 100⟩]
      (by norm_num [ValuesLT, List.chain'_cons])
      (by intro b hb; fin_cases hb <;> norm_num)
      (by intro b hb; fin_cases hb <;> norm_num)).1 190,
   (c7_percentile_total_in_range ⟨35, 0⟩
      [⟨50, 15⟩, ⟨70, 35⟩, ⟨85, 50⟩, ⟨110, 70⟩,
       ⟨140, 85⟩, ⟨175, 93⟩, ⟨200, 97⟩, ⟨250, 100⟩]
      (by norm_num [ValuesLT, List.chain'_cons])
      (by intro b hb; fin_cases hb <;> norm_num)
      (by intro b hb; fin_cases hb <;> norm_num)).2 17.5 (by norm_num)⟩

/-- C1: whenever any required upstream call of `/api/indicators` fails (the
credit-spread, market-cap, GDP or S&P 500 fetch — `fetchShillerData` cannot
fail), the catch handler replies with the fixed static snapshot, `isLive:
false` and the error message attached: a well-formed success payload.  The
code in fact never consults a cached fallback for these four sources, so the
proviso of the claim ("no cached fallback exists for it") is subsumed: the snapshot
is served regardless of the cache.  The return type of the model is the payload
itself (no error alternative), reflecting that the catch of the handler wraps the
whole body and always replies via `res.json`. -/
theorem c1_degraded_composite (st : CacheSt) (now : ℤ) (nowIso : String)
    (fmtTs : String → String) (errMsg : String)
    (shillerNet : Option ShillerParsed) (credit mc gdp sp : Option Obs)
    (hfail : credit = none ∨ mc = none ∨ gdp = none ∨ sp = none) :
    (indicatorsEndpoint st now nowIso fmtTs errMsg shillerNet credit mc gdp sp).1 =
        staticSnapshot errMsg nowIso ∧
    (staticSnapshot errMsg nowIso).isLive = false ∧
    (staticSnapshot errMsg nowIso).error = some errMsg ∧
    (staticSnapshot errMsg nowIso).score = 99 := by
  refine ⟨?_, rfl, rfl, rfl⟩
  cases credit <;> cases mc <;> cases gdp <;> cases sp <;>
    simp_all [indicatorsEndpoint]

/-- Witness for C1: failing credit-spread fetch, everything else live. -/
theorem c1_witness :
    (indicatorsEndpoint initialCache 0 "t" (fun s => s) "boom"
        (some ⟨some 30, some "d"⟩) none (some ⟨2500, "dm"⟩) (some ⟨1, "dg"⟩)
        (some ⟨5000, "ds"⟩)).1 = staticSnapshot "boom" "t" ∧
    (staticSnapshot "boom" "t").isLive = false ∧
    (staticSnapshot "boom" "t").error = some "boom" ∧
    (staticSnapshot "boom" "t").score = 99 :=
  c1_degraded_composite initialCache 0 "t" (fun s => s) "boom"
    (some ⟨some 30, some "d"⟩) none (some ⟨2500, "dm"⟩) (some ⟨1, "dg"⟩)
    (some ⟨5000, "ds"⟩) (Or.inl rfl)

/-- C4: on every successful (non-degraded) run of `/api/indicators` the
composite score is `Math.round((capePercentile + buffettPercentile) / 2)` —
where the cape percentile comes from the Shiller chain's value and the
buffett percentile from the rounded market-cap/GDP ratio — and it does not
depend on the credit-spread or S&P 500 observations; at cape percentile 98
and buffett percentile 100 the score is 99. -/
theorem c4_composite_score :
    (∀ (st : CacheSt) (now : ℤ) (nowIso : String) (fmtTs : String → String)
        (errMsg : String) (shillerNet : Option ShillerParsed) (c m g s : Obs),
      (indicatorsEndpoint st now nowIso fmtTs errMsg shillerNet
          (some c) (some m) (some g) (some s)).1.score =
        jsRound ((((interpolatePercentile
            (toNumber (fetchShillerData st now nowIso errMsg shillerNet).1.cape)
            capeTable : ℤ) : ℚ) +
          ((interpolatePercentile ((jsRound (m.value / (g.value * 1000) * 100) : ℤ) : ℚ)
            buffettTable : ℤ) : ℚ)) / 2)) ∧
    (∀ (st : CacheSt) (now : ℤ) (nowIso : String) (fmtTs : String → String)
        (errMsg : String) (shillerNet : Option ShillerParsed) (c c' m g s s' : Obs),
      (indicatorsEndpoint st now nowIso fmtTs errMsg shillerNet
          (some c) (some m) (some g) (some s)).1.score =
        (indicatorsEndpoint st now nowIso fmtTs errMsg shillerNet
          (some c') (some m) (some g) (some s')).1.score) ∧
    ((indicatorsEndpoint initialCache 0 "t" (fun s => s) "e"
        (some ⟨some 40, some "d"⟩) (some ⟨1.69, "dc"⟩) (some ⟨2500, "dm"⟩)
        (some ⟨1, "dg"⟩) (some ⟨5000, "ds"⟩)).1.cape.percentile = 98 ∧
      (indicatorsEndpoint initialCache 0 "t" (fun s => s) "e"
        (some ⟨some 40, some "d"⟩) (some ⟨1.69, "dc"⟩) (some ⟨2500, "dm"⟩)
        (some ⟨1, "dg"⟩) (some ⟨5000, "ds"⟩)).1.buffett.percentile = 100 ∧
      (indicatorsEndpoint initialCache 0 "t" (fun s => s) "e"
        (some ⟨some 40, some "d"⟩) (some ⟨1.69, "dc"⟩) (some ⟨2500, "dm"⟩)
        (some ⟨1, "dg"⟩) (some ⟨5000, "ds"⟩)).1.score = 99) := by
  refine ⟨fun _ _ _ _ _ _ _ _ _ _ => rfl, fun _ _ _ _ _ _ _ _ _ _ _ _ => rfl, ?_, ?_, ?_⟩
  · norm_num [indicatorsEndpoint, fetchShillerData, isCacheValid, initialCache, toNumber,
      interpolatePercentile, capeTable, lastB, interpLoop, bracketVal, jsRound]
  · norm_num [indicatorsEndpoint, fetchShillerData, isCacheValid, initialCache, toNumber,
      interpolatePercentile, buffettTable, lastB, interpLoop, bracketVal, jsRound]
  · norm_num [indicatorsEndpoint, fetchShillerData, isCacheValid, initialCache, toNumber,
      interpolatePercentile, capeTable, buffettTable, lastB, interpLoop, bracketVal, jsRound]

/-- C2 counterexample: a run of `/api/indicators` in which the credit-spread
fetch fails while the Shiller (CAPE) chain delivers a live value of 30 and
the Buffett inputs succeed.  The response is the full static snapshot: the
cape field carries the static 39.4 (source `"static"`), not the live 30, and
`isLive` is false — the credit-spread failure degraded every field, not just
the credit-spread one. -/
theorem c2_counterexample :
    (indicatorsEndpoint initialCache 0 "t" (fun s => s) "boom"
        (some ⟨some 30, some "d"⟩) none (some ⟨2500, "dm"⟩) (some ⟨1, "dg"⟩)
        (some ⟨5000, "ds"⟩)).1.cape.source = "static" ∧
    (indicatorsEndpoint initialCache 0 "t" (fun s => s) "boom"
        (some ⟨some 30, some "d"⟩) none (some ⟨2500, "dm"⟩) (some ⟨1, "dg"⟩)
        (some ⟨5000, "ds"⟩)).1.cape.value = some 39.4 ∧
    ¬ (indicatorsEndpoint initialCache 0 "t" (fun s => s) "boom"
        (some ⟨some 30, some "d"⟩) none (some ⟨2500, "dm"⟩) (some ⟨1, "dg"⟩)
        (some ⟨5000, "ds"⟩)).1.cape.value = some 30 ∧
    (indicatorsEndpoint initialCache 0 "t" (fun s => s) "boom"
        (some ⟨some 30, some "d"⟩) none (some ⟨2500, "dm"⟩) (some ⟨1, "dg"⟩)
        (some ⟨5000, "ds"⟩)).1.isLive = false := by
  refine ⟨rfl, rfl, ?_, rfl⟩
  norm_num [indicatorsEndpoint, staticSnapshot]

/-- C2 amended: in the server.js composite (`/api/indicators`) a
credit-spread failure degrades the *entire* response to the fixed static
snapshot (which still carries numeric — but static — CAPE/Buffett
percentiles and a non-null score, with `isLive: false`); value-level
independence holds only in `getCurrentData` of the part_000 variant, where a
failed BAA10Y series leaves the live CAPE and Buffett values intact and only
the creditSpread field falls back (to 1.8). -/
theorem c2_amended :
    (∀ (st : CacheSt) (now : ℤ) (nowIso : String) (fmtTs : String → String)
        (errMsg : String) (shillerNet : Option ShillerParsed) (mc gdp sp : Option Obs),
      (indicatorsEndpoint st now nowIso fmtTs errMsg shillerNet
          none mc gdp sp).1 = staticSnapshot errMsg nowIso) ∧
    (∀ (st : V2.PCache) (now : ℤ) (nowIso : String)
        (ws gs : List V2.FredRow) (lw lg : V2.FredRow) (c : ℚ)
        (sp : Option V2.SpQuote),
      st.data = none → ws.getLast? = some lw → gs.getLast? = some lg → c ≠ 0 →
      (V2.getCurrentData st now nowIso (some ws) (some gs) none (some c) sp).1.indicators.cape = c ∧
      (V2.getCurrentData st now nowIso (some ws) (some gs) none (some c) sp).1.indicators.buffett =
        ((jsRound (lw.value * 1.05 / lg.value * 1000) : ℤ) : ℚ) / 10 ∧
      (V2.getCurrentData st now nowIso (some ws) (some gs) none (some c) sp).1.indicators.creditSpread = 1.8 ∧
      (V2.getCurrentData st now nowIso (some ws) (some gs) none (some c) sp).1.metadata.capeSource =
        "multpl.com (live)") := by
  constructor
  · intro st now nowIso fmtTs errMsg shillerNet mc gdp sp
    cases mc <;> cases gdp <;> cases sp <;> rfl
  · intro st now nowIso ws gs lw lg c sp hst hws hgs hc
    refine ⟨?_, ?_, ?_, ?_⟩ <;>
      simp [V2.getCurrentData, V2.calculateBuffettIndicator, V2.jsOrQ, hst, hws, hgs, hc]

/-- Witness for C2 amended, on concrete inputs for both composites. -/
theorem c2_amended_witness :
    (indicatorsEndpoint initialCache 0 "t" (fun s => s) "boom"
        (some ⟨some 30, some "d"⟩) none (some ⟨2500, "dm"⟩) (some ⟨1, "dg"⟩)
        (some ⟨5000, "ds"⟩)).1 = staticSnapshot "boom" "t" ∧
    ((V2.getCurrentData ⟨none, 0⟩ 0 "t" (some [⟨"w", 100⟩]) (some [⟨"g", 105⟩])
        none (some 30) none).1.indicators.cape = 30 ∧
      (V2.getCurrentData ⟨none, 0⟩ 0 "t" (some [⟨"w", 100⟩]) (some [⟨"g", 105⟩])
        none (some 30) none).1.indicators.buffett =
          ((jsRound ((100 : ℚ) * 1.05 / 105 * 1000) : ℤ) : ℚ) / 10 ∧
      (V2.getCurrentData ⟨none, 0⟩ 0 "t" (some [⟨"w", 100⟩]) (some [⟨"g", 105⟩])
        none (some 30) none).1.indicators.creditSpread = 1.8 ∧
      (V2.getCurrentData ⟨none, 0⟩ 0 "t" (some [⟨"w", 100⟩]) (some [⟨"g", 105⟩])
        none (some 30) none).1.metadata.capeSource = "multpl.com (live)") :=
  ⟨c2_amended.1 initialCache 0 "t" (fun s => s) "boom"
      (some ⟨some 30, some "d"⟩) (some ⟨2500, "dm"⟩) (some ⟨1, "dg"⟩) (some ⟨5000, "ds"⟩),
   c2_amended.2 ⟨none, 0⟩ 0 "t" [⟨"w", 100⟩] [⟨"g", 105⟩] ⟨"w", 100⟩ ⟨"g", 105⟩ 30 none
      rfl rfl rfl (by norm_num)⟩

/-- C3 counterexample: with an empty cache and a failing FRED fetch,
`/api/credit-spread` replies with a 500 error response — it does not fall
back to a cached value or a static default.  (The fallback chain of the claim is
implemented only inside `fetchShillerData`.) -/
theorem c3_counterexample :
    (creditSpreadEndpoint initialCache 0 "t" "boom" none).1 =
        Except.error ⟨500, "boom"⟩ ∧
    (creditSpreadEndpoint initialCache 0 "t" "boom" none).2.2 = 1 :=
  ⟨rfl, rfl⟩

/-- C3 amended: the cache-then-static fallback chain exists only in the
Shiller data path: on a failed download `fetchShillerData` returns the cached
result when one exists (even stale) and otherwise the hardcoded static
default `{ cape: 38.2, source: "static" }` with a finite numeric value —
whereas the `/api/credit-spread` and `/api/buffett` handlers reply with a 500
error response on failure, with no cached or static fallback. -/
theorem c3_amended :
    (∀ (st : CacheSt) (now : ℤ) (nowIso errMsg : String) (r : ShillerResult),
      st.shillerData.data = some r →
      isCacheValid st.shillerData shillerDataDuration now = false →
      fetchShillerData st now nowIso errMsg none = (r, st, 1)) ∧
    (∀ (st : CacheSt) (now : ℤ) (nowIso errMsg : String),
      st.shillerData.data = none →
      fetchShillerData st now nowIso errMsg none =
        ({ cape := some 38.2, date := some "fallback", source := "static",
           fetchedAt := none, error := some errMsg }, st, 1)) ∧
    (∀ (st : CacheSt) (now : ℤ) (nowIso errMsg : String),
      isCacheValid st.creditSpread creditSpreadDuration now = false →
      (creditSpreadEndpoint st now nowIso errMsg none).1 =
        Except.error ⟨500, errMsg⟩) ∧
    (∀ (st : CacheSt) (now : ℤ) (nowIso errMsg : String) (gdp : Option Obs),
      isCacheValid st.buffett buffettDuration now = false →
      (buffettEndpoint st now nowIso errMsg none gdp).1 =
        Except.error ⟨500, errMsg⟩) := by
  refine ⟨?_, ?_, ?_, ?_⟩
  · intro st now nowIso errMsg r hr hstale
    simp [fetchShillerData, hstale, hr]
  · intro st now nowIso errMsg hnone
    have hstale : isCacheValid st.shillerData shillerDataDuration now = false := by
      simp [isCacheValid, hnone]
    simp [fetchShillerData, hstale, hnone]
  · intro st now nowIso errMsg hstale
    simp [creditSpreadEndpoint, hstale]
  · intro st now nowIso errMsg gdp hstale
    cases gdp <;> simp [buffettEndpoint, hstale]

/-- Witness for C3 amended, on concrete stale/empty caches. -/
theorem c3_amended_witness :
    fetchShillerData
        ⟨⟨none, 0⟩, ⟨none, 0⟩, ⟨none, 0⟩,
         ⟨some ⟨some 38, some "d", "Shiller/Yale", some "t0", none⟩, 0⟩⟩
        shillerDataDuration "t" "boom" none =
      (⟨some 38, some "d", "Shiller/Yale", some "t0", none⟩,
       ⟨⟨none, 0⟩, ⟨none, 0⟩, ⟨none, 0⟩,
        ⟨some ⟨some 38, some "d", "Shiller/Yale", some "t0", none⟩, 0⟩⟩, 1) ∧
    fetchShillerData initialCache 0 "t" "boom" none =
      ({ cape := some 38.2, date := some "fallback", source := "static",
         fetchedAt := none, error := some "boom" }, initialCache, 1) ∧
    (creditSpreadEndpoint initialCache 0 "t" "boom" none).1 =
      Except.error ⟨500, "boom"⟩ ∧
    (buffettEndpoint initialCache 0 "t" "boom" none (some ⟨1, "g"⟩)).1 =
      Except.error ⟨500, "boom"⟩ :=
  ⟨c3_amended.1 _ shillerDataDuration "t" "boom" _ rfl (by decide),
   c3_amended.2.1 initialCache 0 "t" "boom" rfl,
   c3_amended.2.2.1 initialCache 0 "t" "boom" rfl,
   c3_amended.2.2.2 initialCache 0 "t" "boom" (some ⟨1, "g"⟩) rfl⟩

/-- C8 counterexample: `/api/buffett` with market cap 2396 and GDP 1
(so the raw ratio is 2396/1000*100 = 239.6).  The `value` field of the response is
the rounded 240, yet `isAllTimeHigh` is false, because the handler compares
the *unrounded* 239.6 with 240 — so in this response `isAllTimeHigh` is not
equivalent to "the Buffett Indicator value ≥ 240" read off the response. -/
theorem c8_counterexample :
    (buffettEndpoint initialCache 0 "t" "e" (some ⟨2396, "d1"⟩) (some ⟨1, "d2"⟩)).1 =
      Except.ok { value := 240, percentile := 99, marketCapDate := "d1",
                  gdpDate := "d2", isAllTimeHigh := false, updatedAt := "t" } := by
  norm_num [buffettEndpoint, isCacheValid, initialCache,
    interpolatePercentile, buffettTable, lastB, interpLoop, bracketVal, jsRound]

/-- C8 amended: the 240 threshold is fixed and independent of the percentile
table, but the two endpoints apply it to different quantities: `/api/buffett`
sets `isAllTimeHigh = (raw unrounded value ≥ 240)` while reporting the
rounded value — the two can disagree when the raw value rounds up across the
threshold — whereas `/api/indicators` sets `isAllTimeHigh = (rounded value ≥
240)`, equivalent to the threshold on its reported value; at integer-valued
indicators both agree: false at 239, true at 240. -/
theorem c8_amended :
    (∀ (st : CacheSt) (now : ℤ) (nowIso errMsg : String) (m g : Obs),
      isCacheValid st.buffett buffettDuration now = false →
      (buffettEndpoint st now nowIso errMsg (some m) (some g)).1 =
        Except.ok
          { value := jsRound (m.value / (g.value * 1000) * 100),
            percentile := interpolatePercentile (m.value / (g.value * 1000) * 100) buffettTable,
            marketCapDate := m.date, gdpDate := g.date,
            isAllTimeHigh := decide (240 ≤ m.value / (g.value * 1000) * 100),
            updatedAt := nowIso }) ∧
    (∀ (st : CacheSt) (now : ℤ) (nowIso : String) (fmtTs : String → String)
        (errMsg : String) (shillerNet : Option ShillerParsed) (c m g s : Obs),
      (indicatorsEndpoint st now nowIso fmtTs errMsg shillerNet
          (some c) (some m) (some g) (some s)).1.buffett.isAllTimeHigh =
        decide (240 ≤ (indicatorsEndpoint st now nowIso fmtTs errMsg shillerNet
          (some c) (some m) (some g) (some s)).1.buffett.value)) ∧
    ((buffettEndpoint initialCache 0 "t" "e" (some ⟨2390, "a"⟩) (some ⟨1, "b"⟩)).1 =
      Except.ok { value := 239, percentile := 99, marketCapDate := "a",
                  gdpDate := "b", isAllTimeHigh := false, updatedAt := "t" }) ∧
    ((buffettEndpoint initialCache 0 "t" "e" (some ⟨2400, "a"⟩) (some ⟨1, "b"⟩)).1 =
      Except.ok { value := 240, percentile := 99, marketCapDate := "a",
                  gdpDate := "b", isAllTimeHigh := true, updatedAt := "t" }) := by
  refine ⟨?_, fun _ _ _ _ _ _ _ _ _ _ => rfl, ?_, ?_⟩
  · intro st now nowIso errMsg m g hstale
    simp [buffettEndpoint, hstale]
  · norm_num [buffettEndpoint, isCacheValid, initialCache,
      interpolatePercentile, buffettTable, lastB, interpLoop, bracketVal, jsRound]
  · norm_num [buffettEndpoint, isCacheValid, initialCache,
      interpolatePercentile, buffettTable, lastB, interpLoop, bracketVal, jsRound]

/-- Witness for C8 amended: the `/api/buffett` computed-path shape at a
concrete stale cache and concrete observations. -/
theorem c8_amended_witness :
    (buffettEndpoint initialCache 0 "t" "e" (some ⟨2500, "a"⟩) (some ⟨1, "b"⟩)).1 =
      Except.ok
        { value := jsRound ((2500 : ℚ) / ((1 : ℚ) * 1000) * 100),
          percentile := interpolatePercentile ((2500 : ℚ) / ((1 : ℚ) * 1000) * 100) buffettTable,
          marketCapDate := "a", gdpDate := "b",
          isAllTimeHigh := decide ((240 : ℚ) ≤ (2500 : ℚ) / ((1 : ℚ) * 1000) * 100),
          updatedAt := "t" } :=
  c8_amended.1 initialCache 0 "t" "e" ⟨2500, "a"⟩ ⟨1, "b"⟩ rfl

/-- C9: while the cached entry for an indicator key is fresh (within its
TTL), the endpoint serves the cached, already-percentiled result unchanged
and performs no upstream fetch; consequently two requests within one TTL
window — the first populating the cold cache — trigger exactly one upstream
fetch in total (shown for the cape path of lines 242-246, whose guard is
`isCacheValid`, and for the credit-spread path). -/
theorem c9_fresh_cache_no_fetch :
    (∀ (st : CacheSt) (now : ℤ) (nowIso errMsg : String)
        (net : Option ShillerParsed) (r : CapeResult),
      st.cape.data = some r → now - st.cape.timestamp < capeDuration →
      capeEndpoint st now nowIso errMsg net = (r, st, 0)) ∧
    (∀ (st : CacheSt) (now : ℤ) (nowIso errMsg : String)
        (net : Option Obs) (r : CreditResult),
      st.creditSpread.data = some r →
      now - st.creditSpread.timestamp < creditSpreadDuration →
      creditSpreadEndpoint st now nowIso errMsg net = (Except.ok r, st, 0)) ∧
    (∀ (t1 t2 : ℤ) (iso1 iso2 errMsg : String) (p : ShillerParsed)
        (net2 : Option ShillerParsed),
      t2 - t1 < capeDuration →
      (capeEndpoint initialCache t1 iso1 errMsg (some p)).2.2 = 1 ∧
      (capeEndpoint (capeEndpoint initialCache t1 iso1 errMsg (some p)).2.1
          t2 iso2 errMsg net2).2.2 = 0 ∧
      (capeEndpoint (capeEndpoint initialCache t1 iso1 errMsg (some p)).2.1
          t2 iso2 errMsg net2).1 =
        (capeEndpoint initialCache t1 iso1 errMsg (some p)).1) := by
  refine ⟨?_, ?_, ?_⟩
  · intro st now nowIso errMsg net r hr hfresh
    simp [capeEndpoint, isCacheValid, hr, hfresh]
  · intro st now nowIso errMsg net r hr hfresh
    simp [creditSpreadEndpoint, isCacheValid, hr, hfresh]
  · intro t1 t2 iso1 iso2 errMsg p net2 hwin
    refine ⟨rfl, ?_, ?_⟩ <;>
      simp [capeEndpoint, fetchShillerData, isCacheValid, initialCache, hwin]

/-- Witness for C9: a fresh cached cape entry is served without a fetch, a
fresh credit entry likewise, and the two-call scenario at t1 = 0, t2 = 1000
triggers exactly one fetch. -/
theorem c9_witness :
    capeEndpoint
        ⟨⟨none, 0⟩, ⟨none, 0⟩, ⟨some ⟨some 38, 90, some "d", "Shiller/Yale", "t0"⟩, 0⟩, ⟨none, 0⟩⟩
        1 "t" "e" none =
      (⟨some 38, 90, some "d", "Shiller/Yale", "t0"⟩,
       ⟨⟨none, 0⟩, ⟨none, 0⟩, ⟨some ⟨some 38, 90, some "d", "Shiller/Yale", "t0"⟩, 0⟩, ⟨none, 0⟩⟩,
       0) ∧
    creditSpreadEndpoint
        ⟨⟨some ⟨2, 44, "d", "t0"⟩, 0⟩, ⟨none, 0⟩, ⟨none, 0⟩, ⟨none, 0⟩⟩ 1 "t" "e" none =
      (Except.ok ⟨2, 44, "d", "t0"⟩,
       ⟨⟨some ⟨2, 44, "d", "t0"⟩, 0⟩, ⟨none, 0⟩, ⟨none, 0⟩, ⟨none, 0⟩⟩, 0) ∧
    ((capeEndpoint initialCache 0 "a" "e" (some ⟨some 38, some "d"⟩)).2.2 = 1 ∧
      (capeEndpoint (capeEndpoint initialCache 0 "a" "e" (some ⟨some 38, some "d"⟩)).2.1
          1000 "b" "e" none).2.2 = 0 ∧
      (capeEndpoint (capeEndpoint initialCache 0 "a" "e" (some ⟨some 38, some "d"⟩)).2.1
          1000 "b" "e" none).1 =
        (capeEndpoint initialCache 0 "a" "e" (some ⟨some 38, some "d"⟩)).1) :=
  ⟨c9_fresh_cache_no_fetch.1 _ 1 "t" "e" none _ rfl (by decide),
   c9_fresh_cache_no_fetch.2.1 _ 1 "t" "e" none _ rfl (by decide),
   c9_fresh_cache_no_fetch.2.2 0 1000 "a" "b" "e" ⟨some 38, some "d"⟩ none (by decide)⟩

/-- C10: the freshness check is false whenever no data has ever been stored
for a key (`data: null`), regardless of the stored timestamp, the TTL and the
clock; in the initial cache state every key reports `"expired"` in
`/api/health`, and the first request for a key always issues an upstream
fetch (shown for the credit-spread and cape endpoints of server.js, and for
`getCurrentData` of part_000, which issues all five fetches on a null cache). -/
theorem c10_null_cache_never_fresh :
    (∀ (α : Type) (ts dur now : ℤ),
      isCacheValid (⟨none, ts⟩ : Entry α) dur now = false) ∧
    (∀ now : ℤ, healthCacheStatus initialCache now = ("expired", "expired", "expired")) ∧
    (∀ (now : ℤ) (nowIso errMsg : String) (net : Option Obs),
      (creditSpreadEndpoint initialCache now nowIso errMsg net).2.2 = 1) ∧
    (∀ (now : ℤ) (nowIso errMsg : String) (net : Option ShillerParsed),
      (capeEndpoint initialCache now nowIso errMsg net).2.2 = 1) ∧
    (∀ (ts now : ℤ) (nowIso : String) (w g b : Option (List V2.FredRow))
        (c : Option ℚ) (sp : Option V2.SpQuote),
      (V2.getCurrentData ⟨none, ts⟩ now nowIso w g b c sp).2.2 = 5) := by
  refine ⟨fun α ts dur now => rfl, fun now => rfl, ?_, ?_, fun _ _ _ _ _ _ _ _ => rfl⟩
  · intro now nowIso errMsg net
    cases net <;> rfl
  · intro now nowIso errMsg net
    cases net <;> rfl
